import Mathlib

/-!
Shallow embedding of `src/index.tsx` — a browser chat client ("FinBot") with a
local CSV transaction parser whose aggregate statistics are injected into chat
prompts.  JavaScript numbers are modelled as `JsNum` (an exact rational plus the
special values `NaN`, `Infinity`, `-Infinity`); strings are Lean `String`s and
the JS string primitives used by the source (`trim`, `split`, `parseFloat`,
`toFixed(2)`) are given executable models below.
-/

attribute [local semireducible] Rat.add Rat.mul Rat.sub Rat.inv

/-- Model of a JavaScript number as produced and consumed by this program:
an exact rational, or one of the special values `NaN`, `Infinity`, `-Infinity`.
(The source never exercises binary rounding: all arithmetic it does is sums of
parsed decimal literals, which this model carries exactly.) -/
inductive JsNum where
  | nan : JsNum
  | inf : JsNum
  | neginf : JsNum
  | finite (q : ℚ) : JsNum
deriving DecidableEq, Repr

/-- JS `isNaN` on a number. -/
def jsIsNaN : JsNum → Bool
  | .nan => true
  | _ => false

/-- JS `Number.isFinite`: true exactly on non-special values. -/
def jsIsFinite : JsNum → Bool
  | .finite _ => true
  | _ => false

/-- JS `<` on numbers: false whenever either side is `NaN`. -/
def jsLt : JsNum → JsNum → Bool
  | .nan, _ => false
  | _, .nan => false
  | .neginf, .neginf => false
  | .neginf, _ => true
  | _, .neginf => false
  | .inf, _ => false
  | .finite _, .inf => true
  | .finite q, .finite r => decide (q < r)

/-- JS `>` on numbers (`a > b` is `b < a`, with `NaN` comparisons false). -/
def jsGt (a b : JsNum) : Bool := jsLt b a

/-- JS `>=` on numbers: false if either side is `NaN`, otherwise `¬(a < b)`. -/
def jsGe (a b : JsNum) : Bool :=
  if a = .nan ∨ b = .nan then false else !(jsLt a b)

/-- JS `+` on numbers: `NaN` is absorbing, `Infinity + (-Infinity)` is `NaN`. -/
def jsAdd : JsNum → JsNum → JsNum
  | .nan, _ => .nan
  | _, .nan => .nan
  | .inf, .neginf => .nan
  | .neginf, .inf => .nan
  | .inf, _ => .inf
  | _, .inf => .inf
  | .neginf, _ => .neginf
  | _, .neginf => .neginf
  | .finite q, .finite r => .finite (q + r)

/-- JS `Math.abs`. -/
def jsAbs : JsNum → JsNum
  | .nan => .nan
  | .inf => .inf
  | .neginf => .inf
  | .finite q => .finite |q|

/-- Code points treated as whitespace by JS `String.prototype.trim`. -/
def isJsWhitespace (c : Char) : Bool :=
  let n := c.toNat
  n = 0x9 || n = 0xA || n = 0xB || n = 0xC || n = 0xD || n = 0x20 ||
  n = 0xA0 || n = 0x1680 || (0x2000 ≤ n && n ≤ 0x200A) ||
  n = 0x2028 || n = 0x2029 || n = 0x202F || n = 0x205F || n = 0x3000 || n = 0xFEFF

/-- JS `String.prototype.trim`: strip leading and trailing whitespace. -/
def jsTrim (s : String) : String :=
  String.mk (((s.toList.dropWhile isJsWhitespace).reverse.dropWhile isJsWhitespace).reverse)

/-- JS `String.prototype.split` with a single-character separator, on char
lists: `"".split(sep)` is `[""]`, and separators at the ends produce empty
fields. -/
def splitOnChar (sep : Char) : List Char → List (List Char)
  | [] => [[]]
  | c :: rest =>
    let r := splitOnChar sep rest
    if c = sep then [] :: r
    else
      match r with
      | h :: t => (c :: h) :: t
      | [] => [[c]]

/-- JS `s.split(sep)` for a single-character separator. -/
def jsSplit (sep : Char) (s : String) : List String :=
  (splitOnChar sep s.toList).map String.mk

/-- Numeric value of a list of decimal digit characters. -/
def digitsToNat (ds : List Char) : Nat :=
  ds.foldl (fun a c => a * 10 + (c.toNat - 48)) 0

/-- Optional leading sign of a JS decimal literal: returns (isNegative, rest). -/
def parseSign : List Char → Bool × List Char
  | '-' :: rest => (true, rest)
  | '+' :: rest => (false, rest)
  | cs => (false, cs)

/-- Exponent part of a JS decimal literal (`e` / `E`, optional sign, digits);
yields 0 (exponent not consumed) when absent or digit-less, as in
`parseFloat("5e")`. -/
def parseExponent (cs : List Char) : Int :=
  match cs with
  | 'e' :: rest => parseExponentAfterE rest
  | 'E' :: rest => parseExponentAfterE rest
  | _ => 0
where
  parseExponentAfterE (rest : List Char) : Int :=
    let sr := parseSign rest
    let ds := sr.2.takeWhile Char.isDigit
    if ds = [] then 0
    else if sr.1 then -(digitsToNat ds : Int) else (digitsToNat ds : Int)

/-- Longest-prefix unsigned decimal literal (ECMAScript StrUnsignedDecimalLiteral
without the `Infinity` alternative): integer digits, optional `.` with fraction
digits, optional exponent.  `none` when not even one digit is present. -/
def parseDecimal (cs : List Char) : Option ℚ :=
  let intDs := cs.takeWhile Char.isDigit
  let rest1 := cs.dropWhile Char.isDigit
  let fracAndRest : List Char × List Char :=
    match rest1 with
    | '.' :: r => (r.takeWhile Char.isDigit, r.dropWhile Char.isDigit)
    | _ => ([], rest1)
  let fracDs := fracAndRest.1
  let rest2 := fracAndRest.2
  if intDs = [] ∧ fracDs = [] then none
  else
    let mant : ℚ := (digitsToNat intDs : ℚ) + (digitsToNat fracDs : ℚ) / ((10 : ℚ) ^ fracDs.length)
    let exp := parseExponent rest2
    some (if 0 ≤ exp then mant * (10 : ℚ) ^ exp.toNat else mant / (10 : ℚ) ^ (-exp).toNat)

/-- JS `parseFloat`: skip leading whitespace, optional sign, then either the
literal word `Infinity` or a longest-prefix decimal literal; `NaN` when no
prefix parses. -/
def jsParseFloat (s : String) : JsNum :=
  let cs := s.toList.dropWhile isJsWhitespace
  let sr := parseSign cs
  if sr.2.take 8 = "Infinity".toList then (if sr.1 then .neginf else .inf)
  else
    match parseDecimal sr.2 with
    | none => .nan
    | some q => .finite (if sr.1 then -q else q)

/-- Rendering of a non-negative rational with exactly two decimal places,
rounding to the nearest hundredth with ties away from zero (the ECMAScript
`toFixed` tie rule "pick the larger n"). -/
def toFixed2Pos (q : ℚ) : String :=
  let n : Nat := (Rat.floor (q * 100 + 1 / 2)).toNat
  let ds := (Nat.repr n).toList
  let ds := if ds.length < 3 then List.replicate (3 - ds.length) '0' ++ ds else ds
  String.mk (ds.take (ds.length - 2)) ++ "." ++ String.mk (ds.drop (ds.length - 2))

/-- Multiplicity of `p` in `n`, computed with explicit fuel (fuel `n` always
suffices). -/
def factorCount (p : Nat) : Nat → Nat → Nat
  | 0, _ => 0
  | fuel + 1, n => if 2 ≤ p ∧ n ≠ 0 ∧ n % p = 0 then factorCount p fuel (n / p) + 1 else 0

/-- ECMAScript `ToString` of a positive number at or above 10^21, which always
takes the exponential path `d.ddd…e+<n-1>`: the shortest decimal digits of the
value with trailing zeros stripped, a decimal point after the first digit when
more than one digit remains, and the exponent one less than the digit position
of the decimal point.  On this model's exact rationals the digits are those of
the exact decimal expansion (every JS double is a dyadic, hence finite-decimal,
fraction, so the expansion is finite for every value the program can hold; for
other rationals the expansion is truncated at the 2- and 5-adic depth of the
denominator). -/
def jsToStringLarge (x : ℚ) : String :=
  let k := max (factorCount 2 x.den x.den) (factorCount 5 x.den x.den)
  let m := (Rat.floor (x * (10 : ℚ) ^ k)).toNat
  let ds := (Nat.repr m).toList
  let n := ds.length - k
  let s := (ds.reverse.dropWhile (fun c => c = '0')).reverse
  match s with
  | [] => "0"
  | [d] => String.mk [d] ++ "e+" ++ Nat.repr (n - 1)
  | d :: rest => String.mk [d] ++ "." ++ String.mk rest ++ "e+" ++ Nat.repr (n - 1)

/-- JS `Number.prototype.toFixed(2)`: sign first; then, per the ECMAScript
algorithm, a magnitude at or above 10^21 is rendered as `ToString` of the
magnitude (exponential form, e.g. `(1e21).toFixed(2) = "1e+21"`), and anything
smaller as the two-decimal fixed-point form. -/
def jsToFixed2 : JsNum → String
  | .nan => "NaN"
  | .inf => "Infinity"
  | .neginf => "-Infinity"
  | .finite q =>
    let sgn := if q < 0 then "-" else ""
    let x := if q < 0 then -q else q
    if (10 : ℚ) ^ 21 ≤ x then sgn ++ jsToStringLarge x
    else sgn ++ toFixed2Pos x

/-- Transaction record (src/index.tsx lines 22-26). -/
structure Transaction where
  date : String
  description : String
  amount : JsNum
deriving DecidableEq, Repr

/-- Loop body of `parseCSV` (src/index.tsx lines 191-202): skip blank lines,
split on commas, and push a record when there are at least 3 fields, the
trimmed date and description are non-empty, and the trimmed amount field
parseFloats to a non-NaN number. -/
def parseCSVLoop : List String → List Transaction → List Transaction
  | [], acc => acc
  | line :: rest, acc =>
    if jsTrim line = "" then parseCSVLoop rest acc
    else
      match jsSplit ',' line with
      | p0 :: p1 :: p2 :: _ =>
        let date := jsTrim p0
        let description := jsTrim p1
        let amount := jsParseFloat (jsTrim p2)
        if date ≠ "" ∧ description ≠ "" ∧ ¬ jsIsNaN amount = true then
          parseCSVLoop rest (acc ++ [⟨date, description, amount⟩])
        else parseCSVLoop rest acc
      | _ => parseCSVLoop rest acc

/-- `parseCSV` (src/index.tsx lines 188-203): split the content on newlines,
drop the header line, and run the acceptance loop. -/
def parseCSV (csvContent : String) : List Transaction :=
  parseCSVLoop ((jsSplit '\n' csvContent).drop 1) []

/-- Characters the lazy `.` of a JS regex (without the `s` flag) does not
match: the ECMAScript LineTerminator set — LF, CR, U+2028, U+2029. -/
def isJsLineTerminator (c : Char) : Bool :=
  c = '\n' || c = '\r' || c.toNat = 0x2028 || c.toNat = 0x2029

/-- Scan for the earliest closing `**` of an emphasis span: returns the span
content and the remainder after the closer, or `none` when a line terminator
(LF, CR, U+2028, U+2029 — none of which the lazy `.` of the source regex
`/\*\*(.*?)\*\*/g` can match) or the end of input intervenes. -/
def findClose : List Char → Option (List Char × List Char)
  | [] => none
  | c :: rest =>
    if c = '*' ∧ rest.head? = some '*' then some ([], rest.tail)
    else if isJsLineTerminator c = true then none
    else (findClose rest).map (fun p => (c :: p.1, p.2))

/-- Fuel-indexed body of the `**…**` → `<strong>…</strong>` rewrite
(src/index.tsx line 145): on an unmatched opener the scan advances by one
position, exactly as the global regex does.  Fuel at least the input length
always suffices, since every step strictly shortens the input. -/
def boldAuxFuel : Nat → List Char → List Char
  | 0, cs => cs
  | _, [] => []
  | fuel + 1, c :: rest =>
    if c = '*' ∧ rest.head? = some '*' then
      match findClose rest.tail with
      | some p => "<strong>".toList ++ p.1 ++ "</strong>".toList ++ boldAuxFuel fuel p.2
      | none => c :: boldAuxFuel fuel rest
    else c :: boldAuxFuel fuel rest

/-- The `replace(/\*\*(.*?)\*\*\/g, '<strong>$1</strong>')` transform. -/
def jsBold (s : String) : String :=
  String.mk (boldAuxFuel s.toList.length s.toList)

/-- The `replace(/\n/g, '<br>')` transform. -/
def jsNewlineToBr (s : String) : String :=
  String.mk ((s.toList.map (fun c => if c = '\n' then "<br>".toList else [c])).flatten)

/-- Display formatting applied to the accumulated response buffer on every
received chunk (src/index.tsx lines 144-146): emphasis spans first, then
newlines to `<br>`. -/
def formatResponse (s : String) : String :=
  jsNewlineToBr (jsBold s)

/-- Successive `innerHTML` assignments performed by the `for await` loop
(src/index.tsx lines 142-149): each chunk is appended to the running buffer
and the placeholder is re-rendered from the full buffer. -/
def streamLoop : List String → String → List String
  | [], _ => []
  | c :: rest, acc =>
    let acc2 := acc ++ c
    formatResponse acc2 :: streamLoop rest acc2

/-- Sender of a chat log message (the CSS class on the message element). -/
inductive Sender where
  | user : Sender
  | model : Sender
deriving DecidableEq, Repr

/-- An entry of the visible chat log (`#chat-history` children): a message
bubble created by `addMessage`, or the suggested-prompts block created by
`renderSuggestedPrompts`. -/
inductive LogEntry where
  | message (sender : Sender) (content : String) : LogEntry
  | promptsBlock (prompts : List String) : LogEntry
deriving DecidableEq, Repr

/-- Mutable application state of src/index.tsx: the DOM-held pieces the core
logic reads and writes (input field, disabled state of the three controls,
chat log) plus the module-level variables (`userProfile`, `uploadedFile`,
`transactions`, `chat`).  `chatReady` is whether `initializeChat` succeeded,
i.e. the `chat` variable holds a session; `sendCalls` counts invocations of
`chat.sendMessageStream`. -/
structure AppState where
  inputValue : String
  controlsDisabled : Bool
  log : List LogEntry
  transactions : List Transaction
  uploadedFile : Bool
  userProfile : Option String
  chatReady : Bool
  sendCalls : Nat
  profileSelectorHidden : Bool
  appVisible : Bool
deriving DecidableEq, Repr

/-- Initial state on page load. -/
def initState : AppState :=
  { inputValue := "", controlsDisabled := false, log := [], transactions := [],
    uploadedFile := false, userProfile := none, chatReady := false, sendCalls := 0,
    profileSelectorHidden := false, appVisible := false }

/-- Outcome of one `chat.sendMessageStream` call, as observed by the
`for await` loop: the stream either yields all its chunks and ends normally,
or throws after yielding the listed chunks (a throw by the initial `await`
itself is `failure []`). -/
inductive SendOutcome where
  | success (chunks : List String) : SendOutcome
  | failure (chunks : List String) : SendOutcome
deriving DecidableEq, Repr

/-- Observable result of one `sendMessage` call: the final state, the prompt
actually passed to `chat.sendMessageStream` (none when the call never
happened), the successive contents assigned to the placeholder message
element, and the successive values passed to `setFormState`. -/
structure SendResult where
  state : AppState
  promptSent : Option String
  placeholderContents : List String
  flagTrace : List Bool
deriving DecidableEq, Repr

/-- Static suggested-prompt table (src/index.tsx lines 30-34); the dynamic
lookup `suggestedPrompts[userProfile] || []` yields `[]` for any other key. -/
def suggestedPrompts : String → List String
  | "Student" => ["How do I build credit?", "Budgeting tips for students", "Should I start investing?"]
  | "Professional" => ["How to save for a house?", "401(k) vs. IRA", "Understanding my taxes"]
  | "Retiree" => ["Managing retirement income", "Estate planning basics", "Minimizing taxes in retirement"]
  | _ => []

/-- Error message shown when `initializeChat` catches the missing-API-key
exception (src/index.tsx line 63, with the message from line 43 interpolated). -/
def configErrorMsg : String :=
  "<strong>Error:</strong> API_KEY environment variable not set.. Please ensure your API key is set up correctly and refresh the page."

/-- Placeholder markup appended while waiting for the model
(src/index.tsx lines 133-135). -/
def loadingIndicatorHTML : String :=
  "<div class=\"loading-indicator\"></div><div class=\"loading-indicator\"></div><div class=\"loading-indicator\"></div>"

/-- Message substituted into the placeholder when the streaming send throws
(src/index.tsx line 157). -/
def sendFailureMsg : String := "Sorry, something went wrong. Please try again."

/-- `addMessage` (src/index.tsx lines 73-87): append a message bubble to the
log and return the new state together with the index of the created message
element (the handle the caller mutates). -/
def addMessage (s : AppState) (sender : Sender) (text : String) : AppState × Nat :=
  ({ s with log := s.log ++ [.message sender text] }, s.log.length)

/-- Assignment to `element.innerHTML` for the message element at `idx`. -/
def setMessageContent (s : AppState) (idx : Nat) (content : String) : AppState :=
  { s with log := s.log.set idx (.message .model content) }

/-- `setFormState` (src/index.tsx lines 167-171): the three input controls are
disabled and re-enabled together. -/
def setFormState (isLoading : Bool) (s : AppState) : AppState :=
  { s with controlsDisabled := isLoading }

/-- Number of `.message.user` elements in the log — what
`chatHistory.querySelectorAll('.message.user').length` reports
(src/index.tsx line 151). -/
def userMessageCount (log : List LogEntry) : Nat :=
  log.countP (fun e =>
    match e with
    | .message .user _ => true
    | _ => false)

/-- The lookup `suggestedPrompts[userProfile] || []` (src/index.tsx line 93)
for the current, possibly null, profile. -/
def profilePrompts : Option String → List String
  | some p => suggestedPrompts p
  | none => []

/-- `renderSuggestedPrompts` (src/index.tsx lines 92-108): look up the current
profile in the static table; append one prompts block unless the lookup is
empty. -/
def renderSuggestedPrompts (s : AppState) : AppState :=
  let prompts := profilePrompts s.userProfile
  if prompts = [] then s
  else { s with log := s.log ++ [.promptsBlock prompts] }

/-- Number of suggested-prompts blocks present in the log. -/
def countPromptBlocks (log : List LogEntry) : Nat :=
  log.countP (fun e =>
    match e with
    | .promptsBlock _ => true
    | _ => false)

/-- `initializeChat` (src/index.tsx lines 40-65): with a credential present a
fresh session is created; otherwise the thrown error is caught and reported
as a chat message, leaving the `chat` variable unset. -/
def initializeChat (apiKeyPresent : Bool) (s : AppState) : AppState :=
  if apiKeyPresent then { s with chatReady := true }
  else { s with log := s.log ++ [.message .model configErrorMsg] }

/-- `sendMessage` (src/index.tsx lines 115-161).  Whitespace-only submissions
return before any state change.  Otherwise: controls are disabled, the prompt
is built (prefixed with the transaction summary when a file with accepted
records is held), the literal user text is appended to the log, the input is
cleared, a placeholder is appended, and the stream is consumed; on normal
completion the suggested prompts fire iff exactly one user message is in the
log, on a throw the placeholder is replaced with the failure message; the
`finally` re-enables the controls in every path.  When `chat` was never
created (missing credential) the `chat.sendMessageStream` property access
itself throws, which lands in the same catch. -/
def sendMessage (s : AppState) (messageText : String) (outcome : SendOutcome) : SendResult :=
  if jsTrim messageText = "" then
    { state := s, promptSent := none, placeholderContents := [], flagTrace := [] }
  else
    let s1 := setFormState true s
    let prompt :=
      if s1.uploadedFile = true ∧ 0 < s1.transactions.length then
        let totalIncome := (s1.transactions.filter fun t => jsGt t.amount (.finite 0)).foldl
          (fun sum t => jsAdd sum t.amount) (.finite 0)
        let totalExpenses := (s1.transactions.filter fun t => jsLt t.amount (.finite 0)).foldl
          (fun sum t => jsAdd sum t.amount) (.finite 0)
        let summary := "The user has uploaded a CSV with " ++ Nat.repr s1.transactions.length ++
          " transactions. Total income: " ++ jsToFixed2 totalIncome ++
          ", Total expenses: " ++ jsToFixed2 (jsAbs totalExpenses) ++ "."
        summary ++ "\n\nPlease answer the user's question based on this data: \"" ++ messageText ++ "\""
      else messageText
    let s2 := (addMessage s1 .user messageText).1
    let s3 := { s2 with inputValue := "" }
    let am := addMessage s3 .model loadingIndicatorHTML
    let s4 := am.1
    let phIdx := am.2
    if s4.chatReady = true then
      let s5 := { s4 with sendCalls := s4.sendCalls + 1 }
      match outcome with
      | .success chunks =>
        let contents := "" :: streamLoop chunks ""
        let s6 := setMessageContent s5 phIdx (contents.getLastD "")
        let s7 := if userMessageCount s6.log = 1 then renderSuggestedPrompts s6 else s6
        let s8 := setFormState false s7
        { state := s8, promptSent := some prompt, placeholderContents := contents,
          flagTrace := [true, false] }
      | .failure chunks =>
        let contents := ("" :: streamLoop chunks "") ++ [sendFailureMsg]
        let s6 := setMessageContent s5 phIdx sendFailureMsg
        let s7 := setFormState false s6
        { state := s7, promptSent := some prompt, placeholderContents := contents,
          flagTrace := [true, false] }
    else
      let s6 := setMessageContent s4 phIdx sendFailureMsg
      let s7 := setFormState false s6
      { state := s7, promptSent := none, placeholderContents := [sendFailureMsg],
        flagTrace := [true, false] }

/-- Click handler of a profile button (src/index.tsx lines 283-294): store the
profile, hide the selector, show the app, initialize the chat session, and
send the automatic greeting as a user turn. -/
def profileButtonClick (apiKeyPresent : Bool) (s : AppState) (dataProfile : Option String)
    (outcome : SendOutcome) : SendResult :=
  let s1 := { s with userProfile := dataProfile }
  match dataProfile with
  | none => { state := s1, promptSent := none, placeholderContents := [], flagTrace := [] }
  | some p =>
    let s2 := initializeChat apiKeyPresent
      { s1 with profileSelectorHidden := true, appVisible := true }
    sendMessage s2 ("Hi! My profile is: " ++ p) outcome

/-- Aggregation result of spec §4.2, with the fields computed exactly as the
transaction-context branch of `sendMessage` computes them
(src/index.tsx lines 123-127): income is the fold over the positive amounts,
expenses the absolute value of the fold over the negative amounts. -/
structure Summary where
  count : Nat
  totalIncome : JsNum
  totalExpenses : JsNum
deriving DecidableEq, Repr

/-- The summary the program derives from a transaction list
(src/index.tsx lines 123-127 materialized as the record of spec §4.2). -/
def summarize (ts : List Transaction) : Summary :=
  { count := ts.length
  , totalIncome := (ts.filter fun t => jsGt t.amount (.finite 0)).foldl
      (fun sum t => jsAdd sum t.amount) (.finite 0)
  , totalExpenses := jsAbs ((ts.filter fun t => jsLt t.amount (.finite 0)).foldl
      (fun sum t => jsAdd sum t.amount) (.finite 0)) }

/-- Visual class chosen for a transaction row by `renderTransactionsTable`
(src/index.tsx line 217): `trx.amount >= 0 ? 'amount-positive' : 'amount-negative'`. -/
def amountClass (t : Transaction) : String :=
  if jsGe t.amount (.finite 0) = true then "amount-positive" else "amount-negative"

/-- Acceptance rule for one post-header line exactly as the spec states it
(§4.1): blank lines are skipped; otherwise the line is accepted iff, after
splitting on commas, it has at least 3 fields, field 0 trims to a non-empty
date, field 1 trims to a non-empty description, and field 2 trims and parses
as a FINITE decimal number. -/
def specAcceptsLine (line : String) : Option Transaction :=
  if jsTrim line = "" then none
  else
    match jsSplit ',' line with
    | p0 :: p1 :: p2 :: _ =>
      if jsTrim p0 ≠ "" ∧ jsTrim p1 ≠ "" ∧ jsIsFinite (jsParseFloat (jsTrim p2)) = true then
        some ⟨jsTrim p0, jsTrim p1, jsParseFloat (jsTrim p2)⟩
      else none
    | _ => none

/-- The spec's acceptance rule amended at the one point the code forces:
field 2 must parse to a non-NaN number — the literal `Infinity` is accepted,
so a record's amount may be infinite. -/
def specAcceptsLineAmended (line : String) : Option Transaction :=
  if jsTrim line = "" then none
  else
    match jsSplit ',' line with
    | p0 :: p1 :: p2 :: _ =>
      if jsTrim p0 ≠ "" ∧ jsTrim p1 ≠ "" ∧ ¬ jsIsNaN (jsParseFloat (jsTrim p2)) = true then
        some ⟨jsTrim p0, jsTrim p1, jsParseFloat (jsTrim p2)⟩
      else none
    | _ => none

/-- The CSV text of the spec's worked example (§8). -/
def csvExample : String :=
  "Date,Description,Amount\n2024-01-01,Salary,2500\n2024-01-02,Groceries,-42.50\nbad,row"

/-! ### Helper lemmas -/

theorem parseCSVLoop_eq_filterMap (lines : List String) (acc : List Transaction) :
    parseCSVLoop lines acc = acc ++ lines.filterMap specAcceptsLineAmended := by
  induction lines generalizing acc with
  | nil => simp [parseCSVLoop]
  | cons line rest ih =>
    by_cases hb : jsTrim line = ""
    · simp [parseCSVLoop, specAcceptsLineAmended, hb, ih]
    · simp only [parseCSVLoop, specAcceptsLineAmended, hb, if_neg, if_false,
        List.filterMap_cons]
      cases hsplit : jsSplit ',' line with
      | nil => simp [hsplit, ih]
      | cons p0 tl0 =>
        cases tl0 with
        | nil => simp [ih]
        | cons p1 tl1 =>
          cases tl1 with
          | nil => simp [ih]
          | cons p2 tl2 =>
            by_cases hacc : ¬ jsTrim p0 = "" ∧ ¬ jsTrim p1 = "" ∧
                jsIsNaN (jsParseFloat (jsTrim p2)) = false
            · simp [hacc, ih]
            · simp [hacc, ih]

theorem parseCSV_eq_filterMap (s : String) :
    parseCSV s = ((jsSplit '\n' s).drop 1).filterMap specAcceptsLineAmended := by
  simpa [parseCSV] using parseCSVLoop_eq_filterMap ((jsSplit '\n' s).drop 1) []

theorem specAcceptsLineAmended_some {line : String} {t : Transaction}
    (h : specAcceptsLineAmended line = some t) :
    t.date ≠ "" ∧ t.description ≠ "" ∧ jsIsNaN t.amount = false := by
  unfold specAcceptsLineAmended at h
  split at h
  · exact absurd h (by simp)
  · split at h
    · split at h
      · rename_i hcond
        cases h
        refine ⟨hcond.1, hcond.2.1, ?_⟩
        simpa using hcond.2.2
      · exact absurd h (by simp)
    · exact absurd h (by simp)

theorem mem_parseCSV_props {s : String} {t : Transaction} (ht : t ∈ parseCSV s) :
    t.date ≠ "" ∧ t.description ≠ "" ∧ jsIsNaN t.amount = false := by
  rw [parseCSV_eq_filterMap] at ht
  obtain ⟨line, -, hline⟩ := List.mem_filterMap.mp ht
  exact specAcceptsLineAmended_some hline

theorem jsTrim_eq_empty_iff (s : String) :
    jsTrim s = "" ↔ ∀ c ∈ s.toList, isJsWhitespace c = true := by
  unfold jsTrim
  constructor
  · intro h c hc
    have hl : ((s.toList.dropWhile isJsWhitespace).reverse.dropWhile isJsWhitespace).reverse
        = [] := by
      have := congrArg String.data h
      simpa using this
    rw [List.reverse_eq_nil_iff, List.dropWhile_eq_nil_iff] at hl
    have hsplitmem : c ∈ s.toList.takeWhile isJsWhitespace ++ s.toList.dropWhile isJsWhitespace := by
      rw [List.takeWhile_append_dropWhile]
      exact hc
    rcases List.mem_append.mp hsplitmem with h1 | h2
    · exact List.mem_takeWhile_imp h1
    · exact hl c (List.mem_reverse.mpr h2)
  · intro h
    have h1 : s.toList.dropWhile isJsWhitespace = [] :=
      List.dropWhile_eq_nil_iff.mpr (fun x hx => h x hx)
    simp only [String.toList] at h1
    simp only [String.toList, h1, List.reverse_nil, List.dropWhile_nil]

theorem set_append_two {α : Type} (l : List α) (a b c : α) :
    (l ++ [a, b]).set (l.length + 1) c = l ++ [a, c] := by
  induction l with
  | nil => rfl
  | cons x xs ih => simpa using ih

theorem jsAdd_comm (a b : JsNum) : jsAdd a b = jsAdd b a := by
  cases a <;> cases b <;> simp [jsAdd] <;> ring

theorem jsAdd_assoc (a b c : JsNum) : jsAdd (jsAdd a b) c = jsAdd a (jsAdd b c) := by
  cases a <;> cases b <;> cases c <;> simp [jsAdd] <;> ring

theorem foldr_jsAdd_shift (z a : JsNum) (l : List JsNum) :
    l.foldr jsAdd (jsAdd z a) = jsAdd a (l.foldr jsAdd z) := by
  induction l with
  | nil => exact jsAdd_comm z a
  | cons x xs ih =>
    simp only [List.foldr_cons, ih]
    rw [← jsAdd_assoc, jsAdd_comm x a, jsAdd_assoc]

theorem foldl_jsAdd_eq_foldr (z : JsNum) (l : List JsNum) :
    l.foldl jsAdd z = l.foldr jsAdd z := by
  induction l generalizing z with
  | nil => rfl
  | cons x xs ih =>
    simp only [List.foldl_cons, List.foldr_cons, ih]
    exact foldr_jsAdd_shift z x xs

theorem amount_foldl_eq (ts : List Transaction) (p : JsNum → Bool) (z : JsNum) :
    (ts.filter fun t => p t.amount).foldl (fun sum t => jsAdd sum t.amount) z
      = ((ts.map fun t => t.amount).filter p).foldl jsAdd z := by
  induction ts generalizing z with
  | nil => rfl
  | cons t ts ih => by_cases h : p t.amount <;> simp [h, ih]

/-- Sum, as the spec words it, of the amounts strictly greater than zero. -/
def sumOfPositives (ts : List Transaction) : JsNum :=
  ((ts.map fun t => t.amount).filter (fun a => jsGt a (.finite 0))).foldr jsAdd (.finite 0)

/-- Sum, as the spec words it, of the amounts strictly less than zero. -/
def sumOfNegatives (ts : List Transaction) : JsNum :=
  ((ts.map fun t => t.amount).filter (fun a => jsLt a (.finite 0))).foldr jsAdd (.finite 0)

theorem summarize_zero_insert (l1 l2 : List Transaction) (t : Transaction)
    (ht : t.amount = .finite 0) :
    summarize (l1 ++ t :: l2) = { summarize (l1 ++ l2) with count := (l1 ++ l2).length + 1 } := by
  have hgt : jsGt t.amount (.finite 0) = false := by rw [ht]; decide
  have hlt : jsLt t.amount (.finite 0) = false := by rw [ht]; decide
  simp [summarize, List.filter_append, List.filter_cons, hgt, hlt]
  omega

/-- C1 (counterexample): on the input `"Date,Description,Amount\na,b,Infinity"`
the single post-header line is non-blank, splits into 3 fields, has non-empty
trimmed date and description — but field 2 parses to `Infinity`, which is NOT
a finite number, so the claim's acceptance rule (`specAcceptsLine`, requiring
a finite amount) drops the line; `parseCSV` nevertheless produces a record for
it, and that record's amount is not finite.  This refutes both halves of the
claim: the acceptance characterization and "every output record has a finite
amount". -/
theorem C1_counterexample :
    parseCSV "Date,Description,Amount\na,b,Infinity" = [⟨"a", "b", .inf⟩] ∧
    jsIsFinite JsNum.inf = false ∧
    specAcceptsLine "a,b,Infinity" = none ∧
    jsTrim "a,b,Infinity" ≠ "" := by decide

/-- C1 (amended): `parseCSV` yields, in input order, exactly one record per
non-blank post-header line that splits on commas into at least 3 fields with
non-empty trimmed date and description and an amount field that parses to a
non-NaN number (`specAcceptsLineAmended`; the literal `Infinity` is accepted,
so an amount may be infinite); every other line is dropped, the output length
never exceeds the input line count minus 1, and every output record has a
non-empty date, a non-empty description, and a non-NaN amount. -/
theorem C1_parser_characterization (s : String) :
    parseCSV s = ((jsSplit '\n' s).drop 1).filterMap specAcceptsLineAmended ∧
    (parseCSV s).length ≤ (jsSplit '\n' s).length - 1 ∧
    ∀ t ∈ parseCSV s, t.date ≠ "" ∧ t.description ≠ "" ∧ jsIsNaN t.amount = false := by
  refine ⟨parseCSV_eq_filterMap s, ?_, fun t ht => mem_parseCSV_props ht⟩
  rw [parseCSV_eq_filterMap]
  calc (((jsSplit '\n' s).drop 1).filterMap specAcceptsLineAmended).length
      ≤ ((jsSplit '\n' s).drop 1).length := List.length_filterMap_le _ _
    _ = (jsSplit '\n' s).length - 1 := List.length_drop 1 _

/-- Witness for `C1_parser_characterization` at a concrete input. -/
theorem C1_parser_characterization_witness :
    (⟨"a", "b", JsNum.finite 1⟩ : Transaction).date ≠ "" ∧
    (⟨"a", "b", JsNum.finite 1⟩ : Transaction).description ≠ "" ∧
    jsIsNaN (⟨"a", "b", JsNum.finite 1⟩ : Transaction).amount = false :=
  (C1_parser_characterization "Date\na,b,1").2.2 ⟨"a", "b", .finite 1⟩ (by decide)

/-- C2: the summary the program computes satisfies the spec's aggregation
contract — `totalIncome` is the sum of the amounts strictly greater than
zero, `totalExpenses` is the absolute value of the sum of the amounts
strictly less than zero, a zero-amount record contributes to neither total,
and on the two records parsed from the worked example CSV the summary is
count 2, totalIncome 2500, totalExpenses 42.5 (= 85/2). -/
theorem C2_summarize_correct :
    (∀ ts : List Transaction,
      (summarize ts).totalIncome = sumOfPositives ts ∧
      (summarize ts).totalExpenses = jsAbs (sumOfNegatives ts)) ∧
    (∀ (l1 l2 : List Transaction) (t : Transaction), t.amount = .finite 0 →
      summarize (l1 ++ t :: l2) = { summarize (l1 ++ l2) with count := (l1 ++ l2).length + 1 }) ∧
    summarize (parseCSV csvExample) = ⟨2, .finite 2500, .finite (85 / 2)⟩ := by
  refine ⟨fun ts => ⟨?_, ?_⟩, summarize_zero_insert, by decide⟩
  · show (ts.filter fun t => jsGt t.amount (.finite 0)).foldl
        (fun sum t => jsAdd sum t.amount) (.finite 0) = sumOfPositives ts
    exact (amount_foldl_eq ts (fun a => jsGt a (.finite 0)) (.finite 0)).trans
      (foldl_jsAdd_eq_foldr _ _)
  · show jsAbs ((ts.filter fun t => jsLt t.amount (.finite 0)).foldl
        (fun sum t => jsAdd sum t.amount) (.finite 0)) = jsAbs (sumOfNegatives ts)
    exact congrArg jsAbs ((amount_foldl_eq ts (fun a => jsLt a (.finite 0)) (.finite 0)).trans
      (foldl_jsAdd_eq_foldr _ _))

/-- Witness for `C2_summarize_correct` at a concrete zero-amount insertion. -/
theorem C2_summarize_correct_witness :
    summarize ([] ++ (⟨"2024-01-03", "Nothing", .finite 0⟩ : Transaction) :: []) =
      { summarize ([] ++ ([] : List Transaction)) with
        count := (([] : List Transaction) ++ []).length + 1 } :=
  C2_summarize_correct.2.1 [] [] ⟨"2024-01-03", "Nothing", .finite 0⟩ rfl

/-- C3: for every non-whitespace submission and every stream outcome (normal
completion, mid-stream failure, or failure before any chunk — and even when
the session was never created), the in-flight flag is set exactly once at
send-invocation and cleared exactly once at the very end (`setFormState` is
called with `true` then `false` and nothing in between), and the final state
has the controls enabled — the flag is never left true.  A whitespace-only
submission changes nothing and never touches the flag. -/
theorem C3_flight_flag (s : AppState) (text : String) (o : SendOutcome) :
    (jsTrim text ≠ "" →
      (sendMessage s text o).flagTrace = [true, false] ∧
      (sendMessage s text o).state.controlsDisabled = false) ∧
    (jsTrim text = "" → sendMessage s text o = ⟨s, none, [], []⟩) := by
  constructor
  · intro h
    unfold sendMessage
    rw [if_neg h]
    cases o with
    | success chunks =>
      by_cases hc : s.chatReady = true <;>
        simp [hc, setFormState, addMessage, setMessageContent, renderSuggestedPrompts] <;>
        split <;> simp
    | failure chunks =>
      by_cases hc : s.chatReady = true <;>
        simp [hc, setFormState, addMessage, setMessageContent]
  · intro h
    unfold sendMessage
    rw [if_pos h]

/-- Witness for `C3_flight_flag` at a concrete state and submission. -/
theorem C3_flight_flag_witness :
    (sendMessage initState "hello" (.failure [])).flagTrace = [true, false] ∧
    (sendMessage initState "hello" (.failure [])).state.controlsDisabled = false :=
  (C3_flight_flag initState "hello" (.failure [])).1 (by decide)

theorem userMessageCount_append_two (l : List LogEntry) (a c : String) :
    userMessageCount (l ++ [.message .user a, .message .model c]) = userMessageCount l + 1 := by
  simp [userMessageCount, List.countP_append, List.countP_cons]

theorem countPromptBlocks_append_two (l : List LogEntry) (a c : String) :
    countPromptBlocks (l ++ [.message .user a, .message .model c]) = countPromptBlocks l := by
  simp [countPromptBlocks, List.countP_append, List.countP_cons]

/-- C4 (counterexample): with no credential, the failure is indeed reported
once at session creation — but a subsequent send does NOT surface a distinct,
terminal, non-retryable configuration error: the placeholder receives exactly
the same generic message a recoverable streaming failure produces, and the
input controls are re-enabled (the user may retry).  The first block computes
a send after a failed `initializeChat`; the last conjunct shows a genuine
streaming failure with a valid credential yields the identical message. -/
theorem C4_counterexample :
    (let sNoKey := initializeChat false { initState with userProfile := some "Student" }
     let r := sendMessage sNoKey "What should I invest in?" (.success ["ok"])
     r.state.log.getLastD (.message .user "") = .message .model sendFailureMsg ∧
     r.state.controlsDisabled = false ∧
     r.state.sendCalls = 0) ∧
    (sendMessage { initState with chatReady := true } "What should I invest in?"
        (.failure [])).state.log.getLastD (.message .user "")
      = .message .model sendFailureMsg := by decide

/-- C4 (amended): the credential is checked once, at session creation, where a
missing key logs an explanatory configuration-error message and leaves the
session unset; every subsequent non-whitespace send then fails without ever
invoking the stream (`sendCalls` unchanged, no prompt passed), but surfaces
this as the same generic, retryable failure message used for streaming errors,
with the controls re-enabled — not as a distinct terminal ConfigurationError. -/
theorem C4_missing_credential (s : AppState) (text : String) (o : SendOutcome)
    (hne : jsTrim text ≠ "") (hnochat : s.chatReady = false) :
    (initializeChat false s).chatReady = false ∧
    (initializeChat false s).log = s.log ++ [.message .model configErrorMsg] ∧
    (sendMessage s text o).state.log =
      s.log ++ [.message .user text, .message .model sendFailureMsg] ∧
    (sendMessage s text o).state.controlsDisabled = false ∧
    (sendMessage s text o).state.sendCalls = s.sendCalls ∧
    (sendMessage s text o).promptSent = none := by
  refine ⟨by simp [initializeChat, hnochat], by simp [initializeChat], ?_⟩
  unfold sendMessage
  rw [if_neg hne]
  simp [hnochat, setFormState, addMessage, setMessageContent, set_append_two]

/-- Witness for `C4_missing_credential` at a concrete state and text. -/
theorem C4_missing_credential_witness :
    (initializeChat false initState).chatReady = false ∧
    (initializeChat false initState).log = initState.log ++ [.message .model configErrorMsg] ∧
    (sendMessage initState "hi" (.success [])).state.log =
      initState.log ++ [.message .user "hi", .message .model sendFailureMsg] ∧
    (sendMessage initState "hi" (.success [])).state.controlsDisabled = false ∧
    (sendMessage initState "hi" (.success [])).state.sendCalls = initState.sendCalls ∧
    (sendMessage initState "hi" (.success [])).promptSent = none :=
  C4_missing_credential initState "hi" (.success []) (by decide) rfl

/-- C5 (counterexample): when the conversation's first user turn fails and the
second completes normally, no suggested-prompts block is ever appended — the
code keys the block on "exactly one user message in the log", not on "first
turn that completes normally", so the claim's promised block after the second
(first normally-completing) turn does not appear. -/
theorem C5_counterexample :
    let s0 := { initState with userProfile := some "Student", chatReady := true }
    let r1 := sendMessage s0 "first" (.failure [])
    let r2 := sendMessage r1.state "second" (.success ["ok"])
    countPromptBlocks r2.state.log = 0 ∧
    userMessageCount r2.state.log = 2 ∧
    profilePrompts r2.state.userProfile ≠ [] := by decide

/-- C5 (amended): a suggested-prompts block is appended exactly when a turn
completes normally while the log then holds exactly one user message (so only
when the conversation's very first user turn is the one that completes, and
the profile has prompts): it is placed immediately after that turn's response;
a completed turn with any earlier user message appends none, and a failed turn
never appends one — hence a conversation whose first turn fails gets no block
at all. -/
theorem C5_prompts_characterization (s : AppState) (text : String) (chunks : List String)
    (hne : jsTrim text ≠ "") (hready : s.chatReady = true) :
    (userMessageCount s.log = 0 ∧ profilePrompts s.userProfile ≠ [] →
      (sendMessage s text (.success chunks)).state.log =
        s.log ++ [.message .user text,
          .message .model (("" :: streamLoop chunks "").getLastD ""),
          .promptsBlock (profilePrompts s.userProfile)]) ∧
    (userMessageCount s.log ≠ 0 →
      countPromptBlocks (sendMessage s text (.success chunks)).state.log =
        countPromptBlocks s.log) ∧
    (∀ cs : List String,
      countPromptBlocks (sendMessage s text (.failure cs)).state.log =
        countPromptBlocks s.log) := by
  refine ⟨?_, ?_, ?_⟩
  · rintro ⟨h0, hp⟩
    unfold sendMessage
    rw [if_neg hne]
    simp [hready, setFormState, addMessage, setMessageContent, set_append_two,
      renderSuggestedPrompts, userMessageCount_append_two, h0, hp]
  · intro h0
    unfold sendMessage
    rw [if_neg hne]
    simp [hready, setFormState, addMessage, setMessageContent, set_append_two,
      renderSuggestedPrompts, userMessageCount_append_two, h0,
      countPromptBlocks_append_two]
  · intro cs
    unfold sendMessage
    rw [if_neg hne]
    simp [hready, setFormState, addMessage, setMessageContent, set_append_two,
      countPromptBlocks_append_two]

/-- Witness for `C5_prompts_characterization` at a concrete first turn. -/
theorem C5_prompts_characterization_witness :
    (sendMessage { initState with userProfile := some "Retiree", chatReady := true }
        "hello" (.success ["hi"])).state.log =
      ({ initState with userProfile := some "Retiree", chatReady := true } : AppState).log ++
        [.message .user "hello",
         .message .model (("" :: streamLoop ["hi"] "").getLastD ""),
         .promptsBlock (profilePrompts (some "Retiree"))] :=
  (C5_prompts_characterization
      { initState with userProfile := some "Retiree", chatReady := true }
      "hello" ["hi"] (by decide) rfl).1 ⟨rfl, by decide⟩

/-- C6 (amended): for every send, the prompt passed to the model is the
literal user text wrapped in a synthesized data-summary prefix exactly when
transaction context is present (an uploaded file with at least one accepted
record); the prefix embeds the record count and the income/expense totals of
the program's summary rendered by `toFixed(2)` — two-decimal fixed-point for
magnitudes below 10^21, the exponential `ToString` form (e.g. `1e+21`) at or
above it; without context the prompt is the literal text; and in every case
the message appended to the visible log is the user's original literal text
only. -/
theorem C6_prompt_construction (s : AppState) (text : String) (o : SendOutcome)
    (hne : jsTrim text ≠ "") (hready : s.chatReady = true) :
    (s.uploadedFile = true ∧ 0 < s.transactions.length →
      (sendMessage s text o).promptSent = some
        ("The user has uploaded a CSV with " ++ Nat.repr s.transactions.length ++
         " transactions. Total income: " ++ jsToFixed2 (summarize s.transactions).totalIncome ++
         ", Total expenses: " ++ jsToFixed2 (summarize s.transactions).totalExpenses ++ "." ++
         "\n\nPlease answer the user's question based on this data: \"" ++ text ++ "\"")) ∧
    (¬ (s.uploadedFile = true ∧ 0 < s.transactions.length) →
      (sendMessage s text o).promptSent = some text) ∧
    ((sendMessage s text o).state.log.drop s.log.length).head? =
      some (.message .user text) := by
  refine ⟨?_, ?_, ?_⟩
  · intro hctx
    unfold sendMessage
    rw [if_neg hne]
    cases o <;> simp [hready, hctx, setFormState, addMessage, setMessageContent, summarize]
  · intro hctx
    unfold sendMessage
    rw [if_neg hne]
    cases o <;> simp [hready, hctx, setFormState, addMessage, setMessageContent]
  · unfold sendMessage
    rw [if_neg hne]
    cases o <;>
      simp [hready, setFormState, addMessage, setMessageContent, set_append_two,
        renderSuggestedPrompts, List.drop_left] <;>
      (repeat' split) <;>
      simp [List.drop_left, List.getElem_append_right]

/-- Witness for `C6_prompt_construction` with transaction context present. -/
theorem C6_prompt_construction_witness :
    let s0 : AppState := { initState with
      uploadedFile := true
      transactions := parseCSV csvExample
      chatReady := true }
    (sendMessage s0 "What did I spend?" (.success [])).promptSent = some
      ("The user has uploaded a CSV with " ++ Nat.repr s0.transactions.length ++
       " transactions. Total income: " ++ jsToFixed2 (summarize s0.transactions).totalIncome ++
       ", Total expenses: " ++ jsToFixed2 (summarize s0.transactions).totalExpenses ++ "." ++
       "\n\nPlease answer the user's question based on this data: \"" ++
       "What did I spend?" ++ "\"") := by
  intro s0
  exact (C6_prompt_construction s0 "What did I spend?" (.success [])
    (by decide) rfl).1 ⟨rfl, by decide⟩

theorem streamLoop_eq_map (chunks : List String) (acc : String) :
    streamLoop chunks acc = (List.range chunks.length).map
      (fun i => formatResponse ((chunks.take (i + 1)).foldl (· ++ ·) acc)) := by
  induction chunks generalizing acc with
  | nil => rfl
  | cons c rest ih =>
    simp only [streamLoop, ih (acc ++ c), List.length_cons, List.range_succ_eq_map,
      List.map_cons, List.map_map, Function.comp, List.take_succ_cons, List.foldl_cons]
    simp

/-- C8: during a normally-completing stream the placeholder's content is
re-rendered after every chunk from scratch as the formatted full concatenated
buffer (the i-th assignment is `formatResponse` of the concatenation of the
first i+1 chunks, after the initial clear to the empty string), where
`formatResponse` applies exactly the two transforms `**…**` → `<strong>…</strong>`
and `\n` → `<br>`; the flight flag ends false; and the stream `"Hello "`,
`"**world**"` ends with rendered content `"Hello <strong>world</strong>"`. -/
theorem C8_stream_render (s : AppState) (text : String) (chunks : List String)
    (hne : jsTrim text ≠ "") (hready : s.chatReady = true) :
    (sendMessage s text (.success chunks)).placeholderContents =
      "" :: (List.range chunks.length).map
        (fun i => formatResponse ((chunks.take (i + 1)).foldl (· ++ ·) "")) ∧
    (sendMessage s text (.success chunks)).state.controlsDisabled = false ∧
    formatResponse "Hello **world**" = "Hello <strong>world</strong>" ∧
    (sendMessage s text (.success ["Hello ", "**world**"])).placeholderContents.getLastD ""
      = "Hello <strong>world</strong>" := by
  refine ⟨?_, ?_, by decide, ?_⟩
  · unfold sendMessage
    rw [if_neg hne]
    simp [hready, setFormState, addMessage, setMessageContent, streamLoop_eq_map]
  · unfold sendMessage
    rw [if_neg hne]
    simp [hready, setFormState, addMessage, setMessageContent, renderSuggestedPrompts]
    try (split <;> simp)
  · unfold sendMessage
    rw [if_neg hne]
    simp [hready, setFormState, addMessage, setMessageContent]
    decide

/-- Witness for `C8_stream_render` at a concrete state and stream. -/
theorem C8_stream_render_witness :
    (sendMessage { initState with chatReady := true } "hi"
        (.success ["Hello ", "**world**"])).placeholderContents.getLastD ""
      = "Hello <strong>world</strong>" :=
  (C8_stream_render { initState with chatReady := true } "hi" ["Hello ", "**world**"]
    (by decide) rfl).2.2.2

theorem jsTrim_greeting_ne (p : String) : jsTrim ("Hi! My profile is: " ++ p) ≠ "" := by
  intro h
  have hmem : 'H' ∈ ("Hi! My profile is: " ++ p).toList := by
    simp only [String.toList, String.data_append]
    exact List.mem_append.mpr (Or.inl (by decide))
  have := (jsTrim_eq_empty_iff _).mp h 'H' hmem
  exact absurd this (by decide)

/-- C9: clicking a profile button automatically sends
`"Hi! My profile is: <profile>"` as a user turn before the user types
anything; starting from the fresh page state this greeting is the
conversation's first (and only) user message, so when its stream completes
normally the final log is exactly: the greeting as a user message, the
formatted response, and then — immediately after — the suggested-prompts
block for the chosen profile. -/
theorem C9_profile_greeting (p : String) (chunks : List String)
    (hp : suggestedPrompts p ≠ []) :
    (profileButtonClick true initState (some p) (.success chunks)).state.log =
      [.message .user ("Hi! My profile is: " ++ p),
       .message .model (("" :: streamLoop chunks "").getLastD ""),
       .promptsBlock (suggestedPrompts p)] ∧
    (profileButtonClick true initState (some p) (.success chunks)).promptSent =
      some ("Hi! My profile is: " ++ p) ∧
    (profileButtonClick true initState (some p) (.success chunks)).state.userProfile = some p := by
  have hne := jsTrim_greeting_ne p
  unfold profileButtonClick
  unfold sendMessage
  simp [hne, initState, initializeChat, setFormState, addMessage, setMessageContent,
    renderSuggestedPrompts, userMessageCount, profilePrompts, hp]

/-- Witness for `C9_profile_greeting` at a concrete profile and stream. -/
theorem C9_profile_greeting_witness :
    (profileButtonClick true initState (some "Professional") (.success ["ok"])).state.log =
      [.message .user ("Hi! My profile is: " ++ "Professional"),
       .message .model (("" :: streamLoop ["ok"] "").getLastD ""),
       .promptsBlock (suggestedPrompts "Professional")] ∧
    (profileButtonClick true initState (some "Professional") (.success ["ok"])).promptSent =
      some ("Hi! My profile is: " ++ "Professional") ∧
    (profileButtonClick true initState (some "Professional")
        (.success ["ok"])).state.userProfile = some "Professional" :=
  C9_profile_greeting "Professional" ["ok"] (by decide)

/-- C10: in the transaction viewer, for every record produced by the parser,
a record with amount exactly zero gets the class `amount-positive` (the code
tests `amount >= 0`, not `> 0`), and a record gets `amount-negative` exactly
when its amount is strictly negative. -/
theorem C10_amount_class (s : String) (t : Transaction) (ht : t ∈ parseCSV s) :
    (t.amount = .finite 0 → amountClass t = "amount-positive") ∧
    (amountClass t = "amount-negative" ↔ jsLt t.amount (.finite 0) = true) := by
  obtain ⟨-, -, hnan⟩ := mem_parseCSV_props ht
  constructor
  · intro h0
    unfold amountClass
    rw [h0]
    decide
  · cases h : t.amount with
    | nan => rw [h] at hnan; exact absurd hnan (by decide)
    | inf => unfold amountClass; rw [h]; decide
    | neginf => unfold amountClass; rw [h]; decide
    | finite q =>
      unfold amountClass
      rw [h]
      by_cases hq : q < 0 <;> simp [jsGe, jsLt, hq]

/-- Witness for `C10_amount_class` at a parsed zero-amount record. -/
theorem C10_amount_class_witness :
    ((⟨"2024-01-01", "Zero", JsNum.finite 0⟩ : Transaction).amount = .finite 0 →
      amountClass ⟨"2024-01-01", "Zero", JsNum.finite 0⟩ = "amount-positive") ∧
    (amountClass ⟨"2024-01-01", "Zero", JsNum.finite 0⟩ = "amount-negative" ↔
      jsLt (⟨"2024-01-01", "Zero", JsNum.finite 0⟩ : Transaction).amount (.finite 0) = true) :=
  C10_amount_class "Date,Description,Amount\n2024-01-01,Zero,0"
    ⟨"2024-01-01", "Zero", .finite 0⟩ (by decide)

/-- C7: for every send whose stream throws — after any number of chunks,
including zero — the placeholder message's content is replaced with the one
fixed generic failure string, the input controls are re-enabled, and the
stream is invoked exactly once (no automatic retry): the final log is the
prior log plus the literal user message and the failure message. -/
theorem C7_stream_failure (s : AppState) (text : String) (chunks : List String)
    (hne : jsTrim text ≠ "") (hready : s.chatReady = true) :
    (sendMessage s text (.failure chunks)).state.log =
      s.log ++ [.message .user text, .message .model sendFailureMsg] ∧
    (sendMessage s text (.failure chunks)).state.controlsDisabled = false ∧
    (sendMessage s text (.failure chunks)).state.sendCalls = s.sendCalls + 1 ∧
    (sendMessage s text (.failure chunks)).placeholderContents.getLastD "" = sendFailureMsg := by
  unfold sendMessage
  rw [if_neg hne]
  simp [hready, setFormState, addMessage, setMessageContent, set_append_two]
  rw [show ("" :: (streamLoop chunks "" ++ [sendFailureMsg]))
      = ("" :: streamLoop chunks "") ++ [sendFailureMsg] from rfl,
    List.getLast?_concat]
  rfl

/-- Witness for `C7_stream_failure` at a concrete failing stream. -/
theorem C7_stream_failure_witness :
    (sendMessage { initState with chatReady := true } "hello"
        (.failure ["par"])).state.log =
      ({ initState with chatReady := true } : AppState).log ++
        [.message .user "hello", .message .model sendFailureMsg] ∧
    (sendMessage { initState with chatReady := true } "hello"
        (.failure ["par"])).state.controlsDisabled = false ∧
    (sendMessage { initState with chatReady := true } "hello"
        (.failure ["par"])).state.sendCalls =
      ({ initState with chatReady := true } : AppState).sendCalls + 1 ∧
    (sendMessage { initState with chatReady := true } "hello"
        (.failure ["par"])).placeholderContents.getLastD "" = sendFailureMsg :=
  C7_stream_failure { initState with chatReady := true } "hello" ["par"] (by decide) rfl

/-- C6 (counterexample): the totals embedded in the prompt are not always
"rounded to two decimals".  The row `2199-01-01,Windfall,1e21` parses (so the
input is reachable), its amount is 10^21, and `toFixed(2)` then falls back to
the exponential `ToString` form: the prompt embeds `1e+21`, not the
two-decimal rendering `1000000000000000000000.00`. -/
theorem C6_counterexample :
    let s0 : AppState := { initState with
      uploadedFile := true
      transactions := parseCSV "Date,Description,Amount\n2199-01-01,Windfall,1e21"
      chatReady := true }
    (sendMessage s0 "q" (.success [])).promptSent = some
      ("The user has uploaded a CSV with 1 transactions. Total income: 1e+21, Total expenses: 0.00.\n\nPlease answer the user's question based on this data: \"q\"") ∧
    toFixed2Pos ((10 : ℚ) ^ 21) = "1000000000000000000000.00" ∧
    ("1e+21" : String) ≠ "1000000000000000000000.00" := by decide
